import Mathlib

/-!
Verification of the procurement domain model of the `javascript-review`
repository: `Money`, `PurchaseOrderState`, `PurchaseOrderItem` and the
`PurchaseOrder` aggregate root.

The JavaScript source is shallowly embedded: JavaScript numbers are modelled
as exact rationals together with the non-finite values (`NaN`, `±Infinity`);
`Number.prototype.toFixed(2)` rounding is modelled as exact half-up rounding
to two decimal places; dynamically typed parameters that the source checks
with `instanceof` are modelled as `Option` of the checked class; fallible
constructors and methods return `Except ValidationError` (the single domain
error class of `errors.js`); methods that mutate the aggregate in place
(`addItem` and the lifecycle methods) are modelled as state transformers
returning the post-state paired with the optional thrown error, mirroring the
source's evaluation order (every `throw` in those methods happens before the
single field assignment / array push).
-/

deriving instance DecidableEq for Except

/-- A JavaScript number: either a finite value (modelled exactly as a
rational) or one of the non-finite values `NaN`, `Infinity`, `-Infinity`. -/
inductive JSNum where
  | fin (q : ℚ)
  | posInf
  | negInf
  | nan
deriving DecidableEq

/-- `Number.isFinite`. -/
def JSNum.isFinite : JSNum → Bool
  | .fin _ => true
  | _ => false

/-- `Number.isInteger`. -/
def JSNum.isInteger : JSNum → Bool
  | .fin q => q.den = 1
  | _ => false

/-- Model of `errors.js`: the single domain error class `ValidationError`,
carrying a human-readable message. -/
structure ValidationError where
  message : String
deriving DecidableEq

/-- Model of `currency.js`: a `Currency` stores a code drawn from the closed
set of valid codes (the constructor rejects everything else), and `equals`
compares codes, so the class is faithfully modelled by the enumeration of
valid codes itself. -/
inductive Currency where
  | USD
  | EUR
  | GBP
  | JPY
deriving DecidableEq

/-- `Number(x.toFixed(2))`: rounding to 2 decimal places, modelled as exact
half-up rounding of the rational value (`round` in Mathlib is `⌊x + 1/2⌋`). -/
def round2 (q : ℚ) : ℚ := (round (q * 100) : ℤ) / 100

/-- Model of `money.js`: an amount (finite, validated at construction) with a
currency. -/
structure Money where
  amount : ℚ
  currency : Currency
deriving DecidableEq

/-- The `Money` constructor: rejects a non-finite or negative amount, rejects
a `currency` that is not a `Currency` instance (modelled by `Option`), and
stores the amount rounded to 2 decimal places. -/
def Money.make (amount : JSNum) (currency : Option Currency) : Except ValidationError Money :=
  match amount with
  | .fin a =>
    if a < 0 then
      .error ⟨"Amount must be a non-negative number"⟩
    else
      match currency with
      | some c => .ok ⟨round2 a, c⟩
      | none => .error ⟨"Currency must be a valid Currency object"⟩
  | _ => .error ⟨"Amount must be a non-negative number"⟩

/-- `Money.add`: rejects a different-currency operand (the `instanceof Money`
half of the source's check is enforced by typing), otherwise builds a new
`Money` with the summed amount in this money's currency. -/
def Money.add (self other : Money) : Except ValidationError Money :=
  if self.currency ≠ other.currency then
    .error ⟨"Cannot add Money with different currencies"⟩
  else
    Money.make (.fin (self.amount + other.amount)) (some self.currency)

/-- `Money.multiply`: rejects a non-finite or negative multiplier, otherwise
builds a new `Money` with the multiplied amount in the same currency. -/
def Money.multiply (self : Money) (multiplier : JSNum) : Except ValidationError Money :=
  match multiplier with
  | .fin m =>
    if m < 0 then
      .error ⟨"Multiplier must be a non-negative number"⟩
    else
      Money.make (.fin (self.amount * m)) (some self.currency)
  | _ => .error ⟨"Multiplier must be a non-negative number"⟩

/-- Model of `purchase-order-state.js`: the closed set of valid state values
(the constructor rejects everything else, so the wrapper class is faithfully
modelled by the enumeration together with the transition functions below). -/
inductive POStateValue where
  | Draft
  | Submitted
  | Approved
  | Shipped
  | Completed
  | Canceled
deriving DecidableEq

/-- The `PurchaseOrderState` value object: wraps a validated state value;
a fresh instance (`new PurchaseOrderState()`) defaults to `Draft`. -/
structure PurchaseOrderState where
  value : POStateValue
deriving DecidableEq

/-- `PurchaseOrderState.isDraft`. -/
def PurchaseOrderState.isDraft (s : PurchaseOrderState) : Bool :=
  s.value = POStateValue.Draft

/-- `toSubmittedFrom`: Draft → Submitted, else `ValidationError`.  (The
source method receives the current state as its argument; the receiver
instance is never read, so the method is modelled as a function of the
current state.) -/
def PurchaseOrderState.toSubmittedFrom (currentState : PurchaseOrderState) :
    Except ValidationError PurchaseOrderState :=
  if currentState.value ≠ POStateValue.Draft then
    .error ⟨"PurchaseOrder can only be submitted from Draft state"⟩
  else
    .ok ⟨POStateValue.Submitted⟩

/-- `toApprovedFrom`: Submitted → Approved, else `ValidationError`. -/
def PurchaseOrderState.toApprovedFrom (currentState : PurchaseOrderState) :
    Except ValidationError PurchaseOrderState :=
  if currentState.value ≠ POStateValue.Submitted then
    .error ⟨"PurchaseOrder can only be approved from Submitted state"⟩
  else
    .ok ⟨POStateValue.Approved⟩

/-- `toShippedFrom`: Approved → Shipped, else `ValidationError`. -/
def PurchaseOrderState.toShippedFrom (currentState : PurchaseOrderState) :
    Except ValidationError PurchaseOrderState :=
  if currentState.value ≠ POStateValue.Approved then
    .error ⟨"PurchaseOrder can only be shipped from Approved state"⟩
  else
    .ok ⟨POStateValue.Shipped⟩

/-- `toCompletedFrom`: Shipped → Completed, else `ValidationError`. -/
def PurchaseOrderState.toCompletedFrom (currentState : PurchaseOrderState) :
    Except ValidationError PurchaseOrderState :=
  if currentState.value ≠ POStateValue.Shipped then
    .error ⟨"PurchaseOrder can only be completed from Shipped state"⟩
  else
    .ok ⟨POStateValue.Completed⟩

/-- `toCanceledFrom`: any state except Completed → Canceled, else
`ValidationError`. -/
def PurchaseOrderState.toCanceledFrom (currentState : PurchaseOrderState) :
    Except ValidationError PurchaseOrderState :=
  if currentState.value = POStateValue.Completed then
    .error ⟨"PurchaseOrder cannot be canceled once Completed"⟩
  else
    .ok ⟨POStateValue.Canceled⟩

/-- Model of `product-id.js`: a validated product identifier.  The aggregate
only ever checks `instanceof ProductId` on already-constructed instances, so
the UUID-format validation inside the constructor is not re-modelled. -/
structure ProductId where
  value : String
deriving DecidableEq

/-- Model of `purchase-order-item.js`: an immutable line item. -/
structure PurchaseOrderItem where
  orderId : String
  productId : ProductId
  quantity : ℚ
  unitPrice : Money
deriving DecidableEq

/-- The `PurchaseOrderItem` constructor.  `orderId` must be a non-empty
string (the `typeof` half of the source check is enforced by typing);
`productId` and `unitPrice` must be instances of their classes (modelled by
`Option`); `quantity` must be an integer in `[1, 1000]`. -/
def PurchaseOrderItem.make (orderId : String) (productId : Option ProductId)
    (quantity : JSNum) (unitPrice : Option Money) :
    Except ValidationError PurchaseOrderItem :=
  if orderId = "" then
    .error ⟨"Order ID is required for PurchaseOrderItem"⟩
  else
    match productId with
    | none => .error ⟨"ProductId must be a valid ProductId object"⟩
    | some pid =>
      match quantity with
      | .fin q =>
        if q.den ≠ 1 ∨ q ≤ 0 ∨ 1000 < q then
          .error ⟨"Quantity must be a positive integer not exceeding 1000"⟩
        else
          match unitPrice with
          | some up => .ok ⟨orderId, pid, q, up⟩
          | none => .error ⟨"Unit price must be a valid Money object"⟩
      | _ => .error ⟨"Quantity must be a positive integer not exceeding 1000"⟩

/-- `PurchaseOrderItem.calculateSubtotal`: `unitPrice.multiply(quantity)`. -/
def PurchaseOrderItem.calculateSubtotal (it : PurchaseOrderItem) :
    Except ValidationError Money :=
  it.unitPrice.multiply (.fin it.quantity)

/-- Model of `date-time.js`: a validated point in time (epoch milliseconds).
Only its identity matters to the claims under verification. -/
structure DateTime where
  millis : ℤ
deriving DecidableEq

/-- A dynamically typed JavaScript value, as far as the truthiness check in
the `PurchaseOrder` constructor can distinguish values: the primitives with
their truthiness-relevant payloads, and an opaque object reference (objects
are always truthy). -/
inductive JSValue where
  | undef
  | nullv
  | boolean (b : Bool)
  | number (n : JSNum)
  | string (s : String)
  | object
deriving DecidableEq

/-- JavaScript truthiness: `false`, `0`, `NaN`, the empty string, `null` and
`undefined` are falsy; every other value (including `Infinity` and every
object) is truthy. -/
def JSValue.truthy : JSValue → Bool
  | .undef => false
  | .nullv => false
  | .boolean b => b
  | .number (.fin q) => q ≠ 0
  | .number .posInf => true
  | .number .negInf => true
  | .number .nan => false
  | .string s => s ≠ ""
  | .object => true

/-- `#MAX_ITEMS` of `purchase-order.js`. -/
def MAX_ITEMS : ℕ := 50

/-- Model of `purchase-order.js`: the aggregate root.  `supplierId` is kept
as the raw dynamic value the constructor received (it is only checked for
truthiness). -/
structure PurchaseOrder where
  id : String
  supplierId : JSValue
  currency : Currency
  orderDate : DateTime
  items : List PurchaseOrderItem
  state : PurchaseOrderState
deriving DecidableEq

/-- The `PurchaseOrder` constructor.  `freshId` stands for the generated
UUID and `now` for the current time (both are environment inputs of the
otherwise-pure constructor); `currency` and `orderDate` are `Option`s
modelling the `instanceof` checks; a non-`DateTime` order date silently
defaults to `now`. -/
def PurchaseOrder.make (freshId : String) (now : DateTime) (supplierId : JSValue)
    (currency : Option Currency) (orderDate : Option DateTime) :
    Except ValidationError PurchaseOrder :=
  if ¬ supplierId.truthy then
    .error ⟨"SupplierId is required for PurchaseOrder"⟩
  else
    match currency with
    | none => .error ⟨"Currency must be a valid Currency object"⟩
    | some c =>
      .ok ⟨freshId, supplierId, c, orderDate.getD now, [], ⟨POStateValue.Draft⟩⟩

/-- `PurchaseOrder.addItem`, modelled as a state transformer returning the
post-state and the optional thrown `ValidationError`.  The source mutates
`this` only in the final `push`, which happens after every check and after
both nested constructions succeeded, so every error branch returns the
unchanged aggregate. -/
def PurchaseOrder.addItem (po : PurchaseOrder) (productId : Option ProductId)
    (quantity : JSNum) (unitPrice : JSNum) :
    PurchaseOrder × Option ValidationError :=
  if ¬ po.state.isDraft then
    (po, some ⟨"Items can only be added to a PurchaseOrder in Draft state"⟩)
  else if MAX_ITEMS ≤ po.items.length then
    (po, some ⟨"PurchaseOrder cannot have more than 50 items"⟩)
  else
    match unitPrice with
    | .fin u =>
      if u < 0 then
        (po, some ⟨"Unit price amount must be a non-negative number"⟩)
      else
        match Money.make (.fin u) (some po.currency) with
        | .error e => (po, some e)
        | .ok m =>
          match PurchaseOrderItem.make po.id productId quantity (some m) with
          | .error e => (po, some e)
          | .ok it => ({ po with items := po.items ++ [it] }, none)
    | _ => (po, some ⟨"Unit price amount must be a non-negative number"⟩)

/-- `PurchaseOrder.calculateTotalPrice`: error on an empty order, otherwise
`reduce` of `sum.add(item.calculateSubtotal())` seeded with a zero `Money`
in the order's currency, in list (insertion) order. -/
def PurchaseOrder.calculateTotalPrice (po : PurchaseOrder) :
    Except ValidationError Money :=
  if po.items.length = 0 then
    .error ⟨"Cannot calculate total price for an empty purchase order"⟩
  else do
    let zero ← Money.make (.fin 0) (some po.currency)
    po.items.foldlM (fun sum it => do sum.add (← it.calculateSubtotal)) zero

/-- `PurchaseOrder.submit`: `this.#state = this.#state.toSubmittedFrom(this.#state)`;
the assignment happens only when the transition did not throw. -/
def PurchaseOrder.submit (po : PurchaseOrder) : PurchaseOrder × Option ValidationError :=
  match po.state.toSubmittedFrom with
  | .ok s => ({ po with state := s }, none)
  | .error e => (po, some e)

/-- `PurchaseOrder.approve`. -/
def PurchaseOrder.approve (po : PurchaseOrder) : PurchaseOrder × Option ValidationError :=
  match po.state.toApprovedFrom with
  | .ok s => ({ po with state := s }, none)
  | .error e => (po, some e)

/-- `PurchaseOrder.ship`. -/
def PurchaseOrder.ship (po : PurchaseOrder) : PurchaseOrder × Option ValidationError :=
  match po.state.toShippedFrom with
  | .ok s => ({ po with state := s }, none)
  | .error e => (po, some e)

/-- `PurchaseOrder.complete`. -/
def PurchaseOrder.complete (po : PurchaseOrder) : PurchaseOrder × Option ValidationError :=
  match po.state.toCompletedFrom with
  | .ok s => ({ po with state := s }, none)
  | .error e => (po, some e)

/-- `PurchaseOrder.cancel`. -/
def PurchaseOrder.cancel (po : PurchaseOrder) : PurchaseOrder × Option ValidationError :=
  match po.state.toCanceledFrom with
  | .ok s => ({ po with state := s }, none)
  | .error e => (po, some e)

/-- A unit-price argument passes `addItem`'s check: a finite, non-negative
number. -/
def unitPriceOk (up : JSNum) : Prop := ∃ r : ℚ, up = .fin r ∧ 0 ≤ r

/-- A quantity argument passes the `PurchaseOrderItem` check: an integer in
`[1, 1000]`. -/
def quantityOk (q : JSNum) : Prop :=
  ∃ n : ℚ, q = .fin n ∧ n.den = 1 ∧ 0 < n ∧ n ≤ 1000

/-- A multiplier rejected by `Money.multiply`: non-finite, or finite and
negative. -/
def multiplierBad (f : JSNum) : Prop := ∀ r : ℚ, f = .fin r → r < 0

/-- An amount representable with 2 decimal places. -/
def twoDecimal (q : ℚ) : Prop := ∃ n : ℤ, q = (n : ℚ) / 100

/-- Spec-side description of the total (used to compare the implementation
against the specification's words): the zero `Money` in the order's
currency. -/
def specZero (c : Currency) : Money := ⟨0, c⟩

/-- Spec-side description of a successful same-currency `Money.add`: summed
amount, rounded to 2 decimals, in the left operand's currency. -/
def specAdd (a b : Money) : Money := ⟨round2 (a.amount + b.amount), a.currency⟩

/-- Spec-side description of an item's subtotal `unitPrice.multiply(quantity)`:
the product rounded to 2 decimals, in the unit price's currency. -/
def specSubtotal (it : PurchaseOrderItem) : Money :=
  ⟨round2 (it.unitPrice.amount * it.quantity), it.unitPrice.currency⟩

/-- Spec-side description of `calculateTotalPrice` on a non-empty order: the
left fold of `add` over every item's subtotal, seeded with the zero `Money`
in the order's currency, in insertion order. -/
def specTotal (po : PurchaseOrder) : Money :=
  po.items.foldl (fun sum it => specAdd sum (specSubtotal it)) (specZero po.currency)

/-- The orders reachable through the public surface: freshly constructed, or
obtained from a reachable order by any public mutating operation (whether
the operation succeeded or threw). -/
inductive Reachable : PurchaseOrder → Prop where
  | init (freshId : String) (now : DateTime) (supplierId : JSValue)
      (currency : Option Currency) (orderDate : Option DateTime) (po : PurchaseOrder) :
      PurchaseOrder.make freshId now supplierId currency orderDate = .ok po → Reachable po
  | addItem (po : PurchaseOrder) (pid : Option ProductId) (q up : JSNum) :
      Reachable po → Reachable (po.addItem pid q up).1
  | submit (po : PurchaseOrder) : Reachable po → Reachable po.submit.1
  | approve (po : PurchaseOrder) : Reachable po → Reachable po.approve.1
  | ship (po : PurchaseOrder) : Reachable po → Reachable po.ship.1
  | complete (po : PurchaseOrder) : Reachable po → Reachable po.complete.1
  | cancel (po : PurchaseOrder) : Reachable po → Reachable po.cancel.1

/-- The aggregate invariant of the spec's data-model table: at most 50 items,
and every item's unit price is in the order's currency. -/
def POInvariant (po : PurchaseOrder) : Prop :=
  po.items.length ≤ MAX_ITEMS ∧ ∀ it ∈ po.items, it.unitPrice.currency = po.currency

/-!
Reference-semantics model for the `items` accessor (claim C8).  In the
source, `get items()` is `return this.#items`: it returns the aggregate's
own mutable array object, not a copy.  To state what a caller can do with
the returned value, arrays are modelled as addresses into a store of lists,
the aggregate holds the address of its items array, the getter returns that
address unchanged, and `Array.prototype.push` through any reference is an
update of the store at that address.
-/

/-- A store mapping array references (addresses) to their current contents. -/
structure ArrayStore where
  arrays : ℕ → List PurchaseOrderItem

/-- The reference view of a purchase order: the aggregate's `#items` field
holds a reference to its items array. -/
structure PurchaseOrderRef where
  itemsAddr : ℕ

/-- `get items()` of `purchase-order.js`: `return this.#items` — the getter
hands out the internal array reference itself. -/
def PurchaseOrderRef.itemsGetter (po : PurchaseOrderRef) : ℕ := po.itemsAddr

/-- A caller invoking `push(it)` on the array it holds a reference to. -/
def ArrayStore.push (s : ArrayStore) (addr : ℕ) (it : PurchaseOrderItem) : ArrayStore :=
  ⟨fun n => if n = addr then s.arrays n ++ [it] else s.arrays n⟩

/-- The item sequence the aggregate itself observes in a given store. -/
def PurchaseOrderRef.itemsIn (po : PurchaseOrderRef) (s : ArrayStore) : List PurchaseOrderItem :=
  s.arrays po.itemsAddr

/-- A concrete line item used for concrete instantiations. -/
def sampleItem : PurchaseOrderItem := ⟨"order-1", ⟨"prod-1"⟩, 1, ⟨10, .USD⟩⟩

/-- A concrete draft purchase order used for concrete instantiations. -/
def sampleOrder : PurchaseOrder :=
  ⟨"order-1", .object, .USD, ⟨0⟩, [], ⟨POStateValue.Draft⟩⟩

/-- The concrete order of the specification's total-price scenario: currency
USD, one item of quantity 5 at unit price 45.99 and one of quantity 10 at
unit price 22.99. -/
def scenarioOrder : PurchaseOrder :=
  ⟨"order-1", .object, .USD, ⟨0⟩,
    [⟨"order-1", ⟨"prod-1"⟩, 5, ⟨4599 / 100, .USD⟩⟩,
     ⟨"order-1", ⟨"prod-2"⟩, 10, ⟨2299 / 100, .USD⟩⟩],
    ⟨POStateValue.Draft⟩⟩

theorem round2_zero : round2 0 = 0 := by
  simp [round2]

theorem round2_nonneg {q : ℚ} (h : 0 ≤ q) : 0 ≤ round2 q := by
  unfold round2
  have h1 : (0 : ℤ) ≤ round (q * 100) := by
    rw [round_eq]
    exact Int.floor_nonneg.mpr (by positivity)
  have h2 : (0 : ℚ) ≤ (round (q * 100) : ℚ) := by exact_mod_cast h1
  positivity

theorem round2_twoDecimal (q : ℚ) : twoDecimal (round2 q) :=
  ⟨round (q * 100), rfl⟩

theorem round2_int (n : ℤ) : round2 ((n : ℚ) / 100) = (n : ℚ) / 100 := by
  unfold round2
  rw [div_mul_cancel₀ _ (by norm_num : (100 : ℚ) ≠ 0), round_intCast]

theorem Money.make_ok {a : ℚ} (c : Currency) (h : 0 ≤ a) :
    Money.make (.fin a) (some c) = .ok ⟨round2 a, c⟩ := by
  simp [Money.make, not_lt.mpr h]

theorem Money.add_ok {a b : ℚ} (c : Currency) (h : 0 ≤ a + b) :
    Money.add ⟨a, c⟩ ⟨b, c⟩ = .ok ⟨round2 (a + b), c⟩ := by
  simp [Money.add, Money.make_ok c h]

theorem Money.multiply_ok {a m : ℚ} (c : Currency) (hm : 0 ≤ m) (hp : 0 ≤ a * m) :
    Money.multiply ⟨a, c⟩ (.fin m) = .ok ⟨round2 (a * m), c⟩ := by
  simp [Money.multiply, not_lt.mpr hm, Money.make_ok c hp]

/-- C1: every forward lifecycle operation (`submit`, `approve`, `ship`,
`complete`) succeeds exactly from its single predecessor state, replacing the
state with the successor, and from any other state leaves the order unchanged
and throws the corresponding `ValidationError`; in particular `approve()` on
a fresh (Draft) order fails. -/
theorem forward_lifecycle_characterization (po : PurchaseOrder) :
    po.submit = (if po.state.value = POStateValue.Draft
      then ({ po with state := ⟨POStateValue.Submitted⟩ }, none)
      else (po, some ⟨"PurchaseOrder can only be submitted from Draft state"⟩)) ∧
    po.approve = (if po.state.value = POStateValue.Submitted
      then ({ po with state := ⟨POStateValue.Approved⟩ }, none)
      else (po, some ⟨"PurchaseOrder can only be approved from Submitted state"⟩)) ∧
    po.ship = (if po.state.value = POStateValue.Approved
      then ({ po with state := ⟨POStateValue.Shipped⟩ }, none)
      else (po, some ⟨"PurchaseOrder can only be shipped from Approved state"⟩)) ∧
    po.complete = (if po.state.value = POStateValue.Shipped
      then ({ po with state := ⟨POStateValue.Completed⟩ }, none)
      else (po, some ⟨"PurchaseOrder can only be completed from Shipped state"⟩)) := by
  refine ⟨?_, ?_, ?_, ?_⟩
  · simp only [PurchaseOrder.submit, PurchaseOrderState.toSubmittedFrom]
    by_cases h : po.state.value = POStateValue.Draft <;> simp [h]
  · simp only [PurchaseOrder.approve, PurchaseOrderState.toApprovedFrom]
    by_cases h : po.state.value = POStateValue.Submitted <;> simp [h]
  · simp only [PurchaseOrder.ship, PurchaseOrderState.toShippedFrom]
    by_cases h : po.state.value = POStateValue.Approved <;> simp [h]
  · simp only [PurchaseOrder.complete, PurchaseOrderState.toCompletedFrom]
    by_cases h : po.state.value = POStateValue.Shipped <;> simp [h]

/-- C3: `toCanceledFrom` succeeds from every state other than Completed
(including Canceled itself) and yields Canceled, and fails with
`ValidationError` from Completed; accordingly `cancel()` on the aggregate
succeeds exactly when the order is not Completed. -/
theorem cancel_blocked_only_when_completed :
    (∀ s : PurchaseOrderState,
      s.toCanceledFrom = if s.value = POStateValue.Completed
        then .error ⟨"PurchaseOrder cannot be canceled once Completed"⟩
        else .ok ⟨POStateValue.Canceled⟩) ∧
    (∀ po : PurchaseOrder,
      po.cancel = if po.state.value = POStateValue.Completed
        then (po, some ⟨"PurchaseOrder cannot be canceled once Completed"⟩)
        else ({ po with state := ⟨POStateValue.Canceled⟩ }, none)) := by
  constructor
  · intro s
    by_cases h : s.value = POStateValue.Completed <;>
      simp [PurchaseOrderState.toCanceledFrom, h]
  · intro po
    by_cases h : po.state.value = POStateValue.Completed <;>
      simp [PurchaseOrder.cancel, PurchaseOrderState.toCanceledFrom, h]

/-- C10: the `PurchaseOrder` constructor validates `supplierId` only for
truthiness, never for being a valid `SupplierId`/UUID: with a valid
`Currency`, construction succeeds for every truthy value of any type (for
example an arbitrary non-empty string), and it throws `ValidationError`
exactly when `supplierId` is falsy or `currency` is not a `Currency`
instance. -/
theorem constructor_checks_supplier_presence_only
    (freshId : String) (now : DateTime) (sid : JSValue)
    (currency : Option Currency) (orderDate : Option DateTime) :
    ((∃ po, PurchaseOrder.make freshId now sid currency orderDate = .ok po) ↔
      (sid.truthy = true ∧ currency.isSome = true)) ∧
    (∀ c : Currency, currency = some c → sid.truthy = true →
      PurchaseOrder.make freshId now sid currency orderDate =
        .ok ⟨freshId, sid, c, orderDate.getD now, [], ⟨POStateValue.Draft⟩⟩) ∧
    (sid.truthy = false ∨ currency = none →
      ∃ e, PurchaseOrder.make freshId now sid currency orderDate = .error e) := by
  refine ⟨?_, ?_, ?_⟩
  · constructor
    · rintro ⟨po, hpo⟩
      by_cases ht : sid.truthy <;> cases currency <;>
        simp_all [PurchaseOrder.make]
    · rintro ⟨ht, hc⟩
      cases currency with
      | none => simp at hc
      | some c =>
        exact ⟨⟨freshId, sid, c, orderDate.getD now, [], ⟨POStateValue.Draft⟩⟩,
          by simp [PurchaseOrder.make, ht]⟩
  · rintro c rfl ht
    simp [PurchaseOrder.make, ht]
  · rintro (ht | rfl)
    · exact ⟨⟨"SupplierId is required for PurchaseOrder"⟩,
        by simp [PurchaseOrder.make, ht]⟩
    · by_cases ht : sid.truthy
      · exact ⟨⟨"Currency must be a valid Currency object"⟩,
          by simp [PurchaseOrder.make, ht]⟩
      · exact ⟨⟨"SupplierId is required for PurchaseOrder"⟩,
          by simp [PurchaseOrder.make, ht]⟩

/-- Witness for C10: a non-empty string that is not a UUID is accepted as
`supplierId` together with a USD currency, and a `null` supplier is
rejected. -/
theorem constructor_checks_supplier_presence_only_witness :
    (PurchaseOrder.make "po-1" ⟨0⟩ (.string "not-a-uuid") (some .USD) none =
      .ok ⟨"po-1", .string "not-a-uuid", .USD, ⟨0⟩, [], ⟨POStateValue.Draft⟩⟩) ∧
    (∃ e, PurchaseOrder.make "po-1" ⟨0⟩ .nullv (some .USD) none = .error e) :=
  ⟨(constructor_checks_supplier_presence_only "po-1" ⟨0⟩ (.string "not-a-uuid")
      (some .USD) none).2.1 .USD rfl (by decide),
   (constructor_checks_supplier_presence_only "po-1" ⟨0⟩ .nullv
      (some .USD) none).2.2 (Or.inl (by decide))⟩

/-- C9: with the other constructor arguments valid, a `PurchaseOrderItem`
can be constructed exactly when the quantity is an integer in `[1, 1000]`;
any other quantity makes the constructor throw `ValidationError`. -/
theorem item_quantity_bounds (orderId : String) (pid : ProductId) (q : JSNum)
    (m : Money) (hid : orderId ≠ "") :
    ((∃ it, PurchaseOrderItem.make orderId (some pid) q (some m) = .ok it) ↔
      quantityOk q) ∧
    (∀ n : ℚ, q = .fin n → quantityOk q →
      PurchaseOrderItem.make orderId (some pid) q (some m) = .ok ⟨orderId, pid, n, m⟩) ∧
    (¬ quantityOk q →
      ∃ e, PurchaseOrderItem.make orderId (some pid) q (some m) = .error e) := by
  have key : ∀ n : ℚ, q = .fin n → quantityOk q →
      PurchaseOrderItem.make orderId (some pid) q (some m) = .ok ⟨orderId, pid, n, m⟩ := by
    rintro n rfl ⟨n', hn', hden, hpos, hle⟩
    cases hn'
    simp [PurchaseOrderItem.make, hid, hden, not_lt.mpr hle, not_le.mpr hpos]
  refine ⟨⟨?_, ?_⟩, key, ?_⟩
  · rintro ⟨it, hit⟩
    cases q with
    | fin n =>
      refine ⟨n, rfl, ?_⟩
      by_contra hbad
      have : n.den ≠ 1 ∨ n ≤ 0 ∨ 1000 < n := by
        rcases Decidable.em (n.den = 1) with h1 | h1
        · rcases Decidable.em (0 < n) with h2 | h2
          · rcases Decidable.em (n ≤ 1000) with h3 | h3
            · exact absurd ⟨h1, h2, h3⟩ hbad
            · exact Or.inr (Or.inr (not_le.mp h3))
          · exact Or.inr (Or.inl (not_lt.mp h2))
        · exact Or.inl h1
      simp [PurchaseOrderItem.make, hid, this] at hit
    | posInf => simp [PurchaseOrderItem.make, hid] at hit
    | negInf => simp [PurchaseOrderItem.make, hid] at hit
    | nan => simp [PurchaseOrderItem.make, hid] at hit
  · rintro ⟨n, hn, h1, h2, h3⟩
    exact ⟨⟨orderId, pid, n, m⟩, key n hn ⟨n, hn, h1, h2, h3⟩⟩
  · intro hbad
    cases q with
    | fin n =>
      have hsplit : n.den ≠ 1 ∨ n ≤ 0 ∨ 1000 < n := by
        by_contra hall
        push_neg at hall
        exact hbad ⟨n, rfl, hall.1, hall.2.1, hall.2.2⟩
      exact ⟨⟨"Quantity must be a positive integer not exceeding 1000"⟩,
        by simp [PurchaseOrderItem.make, hid, hsplit]⟩
    | posInf =>
      exact ⟨⟨"Quantity must be a positive integer not exceeding 1000"⟩,
        by simp [PurchaseOrderItem.make, hid]⟩
    | negInf =>
      exact ⟨⟨"Quantity must be a positive integer not exceeding 1000"⟩,
        by simp [PurchaseOrderItem.make, hid]⟩
    | nan =>
      exact ⟨⟨"Quantity must be a positive integer not exceeding 1000"⟩,
        by simp [PurchaseOrderItem.make, hid]⟩

/-- Witness for C9: quantity 1000 is accepted; quantities 0, 1001 and the
non-integer 1/2 are rejected. -/
theorem item_quantity_bounds_witness :
    (PurchaseOrderItem.make "order-1" (some ⟨"prod-1"⟩) (.fin 1000) (some ⟨10, .USD⟩) =
      .ok ⟨"order-1", ⟨"prod-1"⟩, 1000, ⟨10, .USD⟩⟩) ∧
    (∃ e, PurchaseOrderItem.make "order-1" (some ⟨"prod-1"⟩) (.fin 0) (some ⟨10, .USD⟩) =
      .error e) ∧
    (∃ e, PurchaseOrderItem.make "order-1" (some ⟨"prod-1"⟩) (.fin 1001) (some ⟨10, .USD⟩) =
      .error e) ∧
    (∃ e, PurchaseOrderItem.make "order-1" (some ⟨"prod-1"⟩) (.fin (mkRat 1 2)) (some ⟨10, .USD⟩) =
      .error e) :=
  ⟨(item_quantity_bounds "order-1" ⟨"prod-1"⟩ (.fin 1000) ⟨10, .USD⟩ (by decide)).2.1
      1000 rfl ⟨1000, rfl, by decide, by decide, by decide⟩,
   (item_quantity_bounds "order-1" ⟨"prod-1"⟩ (.fin 0) ⟨10, .USD⟩ (by decide)).2.2
      (by rintro ⟨n, hn, _, hpos, _⟩; cases hn; exact absurd hpos (by decide)),
   (item_quantity_bounds "order-1" ⟨"prod-1"⟩ (.fin 1001) ⟨10, .USD⟩ (by decide)).2.2
      (by rintro ⟨n, hn, _, _, hle⟩; cases hn; exact absurd hle (by decide)),
   (item_quantity_bounds "order-1" ⟨"prod-1"⟩ (.fin (mkRat 1 2)) ⟨10, .USD⟩ (by decide)).2.2
      (by rintro ⟨n, hn, hden, _, _⟩; cases hn; exact absurd hden (by decide))⟩

/-- C5: for valid `Money` values (non-negative amounts), `add` rejects a
cross-currency operand, `multiply` rejects a non-finite or negative factor,
and every successful `add` or `multiply` yields a `Money` in the same
currency whose amount is non-negative and representable with 2 decimal
places. -/
theorem money_ops_currency_and_rounding (a b : Money) (f : JSNum)
    (ha : 0 ≤ a.amount) (hb : 0 ≤ b.amount) :
    (a.currency ≠ b.currency → ∃ e, a.add b = .error e) ∧
    (∀ m, a.add b = .ok m →
      m.currency = a.currency ∧ 0 ≤ m.amount ∧ twoDecimal m.amount) ∧
    (multiplierBad f → ∃ e, a.multiply f = .error e) ∧
    (∀ m, a.multiply f = .ok m →
      m.currency = a.currency ∧ 0 ≤ m.amount ∧ twoDecimal m.amount) := by
  refine ⟨?_, ?_, ?_, ?_⟩
  · intro h
    exact ⟨⟨"Cannot add Money with different currencies"⟩, by simp [Money.add, h]⟩
  · intro m hm
    by_cases hc : a.currency = b.currency
    · obtain ⟨aa, ac⟩ := a
      obtain ⟨ba, bc⟩ := b
      simp only at ha hb
      cases hc
      rw [Money.add_ok ac (add_nonneg ha hb)] at hm
      cases hm
      exact ⟨rfl, round2_nonneg (add_nonneg ha hb), round2_twoDecimal _⟩
    · simp [Money.add, hc] at hm
  · intro hbad
    cases f with
    | fin r =>
      exact ⟨⟨"Multiplier must be a non-negative number"⟩,
        by simp [Money.multiply, hbad r rfl]⟩
    | posInf =>
      exact ⟨⟨"Multiplier must be a non-negative number"⟩, by simp [Money.multiply]⟩
    | negInf =>
      exact ⟨⟨"Multiplier must be a non-negative number"⟩, by simp [Money.multiply]⟩
    | nan =>
      exact ⟨⟨"Multiplier must be a non-negative number"⟩, by simp [Money.multiply]⟩
  · intro m hm
    cases f with
    | fin r =>
      by_cases hr : r < 0
      · simp [Money.multiply, hr] at hm
      · obtain ⟨aa, ac⟩ := a
        simp only at ha
        rw [Money.multiply_ok ac (not_lt.mp hr) (mul_nonneg ha (not_lt.mp hr))] at hm
        cases hm
        exact ⟨rfl, round2_nonneg (mul_nonneg ha (not_lt.mp hr)), round2_twoDecimal _⟩
    | posInf => simp [Money.multiply] at hm
    | negInf => simp [Money.multiply] at hm
    | nan => simp [Money.multiply] at hm

/-- Witness for C5: adding 1 USD and 2 EUR fails, and multiplying 1 USD by
`NaN` fails. -/
theorem money_ops_currency_and_rounding_witness :
    (∃ e, Money.add ⟨1, .USD⟩ ⟨2, .EUR⟩ = .error e) ∧
    (∃ e, Money.multiply ⟨1, .USD⟩ .nan = .error e) :=
  ⟨(money_ops_currency_and_rounding ⟨1, .USD⟩ ⟨2, .EUR⟩ .nan
      (by norm_num) (by norm_num)).1 (by simp),
   (money_ops_currency_and_rounding ⟨1, .USD⟩ ⟨2, .EUR⟩ .nan
      (by norm_num) (by norm_num)).2.2.1 (fun r h => nomatch h)⟩

theorem item_make_ok {orderId : String} (hid : orderId ≠ "") (pid : ProductId)
    {n : ℚ} (hden : n.den = 1) (hpos : 0 < n) (hle : n ≤ 1000) (m : Money) :
    PurchaseOrderItem.make orderId (some pid) (.fin n) (some m) =
      .ok ⟨orderId, pid, n, m⟩ := by
  simp [PurchaseOrderItem.make, hid, hden, not_lt.mpr hle, not_le.mpr hpos]

theorem item_make_ok_inv {oid : String} {pid : Option ProductId} {q : JSNum}
    {m : Option Money} {it : PurchaseOrderItem}
    (h : PurchaseOrderItem.make oid pid q m = .ok it) :
    ∃ pid0 n m0, pid = some pid0 ∧ q = .fin n ∧ m = some m0 ∧
      it = ⟨oid, pid0, n, m0⟩ := by
  by_cases hid : oid = ""
  · simp [PurchaseOrderItem.make, hid] at h
  cases pid with
  | none => simp [PurchaseOrderItem.make, hid] at h
  | some pid0 =>
    cases q with
    | fin n =>
      by_cases hcond : n.den ≠ 1 ∨ n ≤ 0 ∨ 1000 < n
      · simp [PurchaseOrderItem.make, hid, hcond] at h
      · cases m with
        | none => simp [PurchaseOrderItem.make, hid, hcond] at h
        | some m0 =>
          refine ⟨pid0, n, m0, rfl, rfl, rfl, ?_⟩
          have := (by simp [PurchaseOrderItem.make, hid, hcond] at h; exact h :
            (⟨oid, pid0, n, m0⟩ : PurchaseOrderItem) = it)
          exact this.symm
    | posInf => simp [PurchaseOrderItem.make, hid] at h
    | negInf => simp [PurchaseOrderItem.make, hid] at h
    | nan => simp [PurchaseOrderItem.make, hid] at h

theorem addItem_cases (po : PurchaseOrder) (pid : Option ProductId) (q up : JSNum) :
    (∃ e, po.addItem pid q up = (po, some e)) ∨
    (∃ u it, up = .fin u ∧ 0 ≤ u ∧ po.state.isDraft = true ∧
      po.items.length < MAX_ITEMS ∧ it.unitPrice = ⟨round2 u, po.currency⟩ ∧
      po.addItem pid q up = ({ po with items := po.items ++ [it] }, none)) := by
  by_cases h1 : po.state.isDraft
  case neg =>
    exact Or.inl ⟨⟨"Items can only be added to a PurchaseOrder in Draft state"⟩,
      by simp [PurchaseOrder.addItem, h1]⟩
  by_cases h2 : MAX_ITEMS ≤ po.items.length
  · exact Or.inl ⟨⟨"PurchaseOrder cannot have more than 50 items"⟩,
      by simp [PurchaseOrder.addItem, h1, h2]⟩
  cases up with
  | fin u =>
    by_cases h3 : u < 0
    · exact Or.inl ⟨⟨"Unit price amount must be a non-negative number"⟩,
        by simp [PurchaseOrder.addItem, h1, h2, h3]⟩
    · cases hmk : PurchaseOrderItem.make po.id pid q (some ⟨round2 u, po.currency⟩) with
      | error e =>
        refine Or.inl ⟨e, ?_⟩
        simp [PurchaseOrder.addItem, h1, h2, h3,
          Money.make_ok po.currency (not_lt.mp h3), hmk]
      | ok it =>
        obtain ⟨pid0, n, m0, _, _, hm0, hit⟩ := item_make_ok_inv hmk
        refine Or.inr ⟨u, it, rfl, not_lt.mp h3, h1, not_le.mp h2, ?_, ?_⟩
        · cases hm0; rw [hit]
        · simp [PurchaseOrder.addItem, h1, h2, h3,
            Money.make_ok po.currency (not_lt.mp h3), hmk]
  | posInf =>
    exact Or.inl ⟨⟨"Unit price amount must be a non-negative number"⟩,
      by simp [PurchaseOrder.addItem, h1, h2]⟩
  | negInf =>
    exact Or.inl ⟨⟨"Unit price amount must be a non-negative number"⟩,
      by simp [PurchaseOrder.addItem, h1, h2]⟩
  | nan =>
    exact Or.inl ⟨⟨"Unit price amount must be a non-negative number"⟩,
      by simp [PurchaseOrder.addItem, h1, h2]⟩

/-- C2: given arguments that pass item-level validation (a `ProductId`
instance and an integer quantity in range) and a real generated order id,
`addItem` succeeds if and only if the order is in Draft state, holds fewer
than 50 items, and the unit price is a finite non-negative number; in every
other case it throws `ValidationError` and adds nothing. -/
theorem addItem_guard_conditions (po : PurchaseOrder) (pid : ProductId)
    (q up : JSNum) (hq : quantityOk q) (hid : po.id ≠ "") :
    ((po.addItem (some pid) q up).2 = none ↔
      (po.state.value = POStateValue.Draft ∧ po.items.length < MAX_ITEMS ∧
        unitPriceOk up)) ∧
    ((po.addItem (some pid) q up).2 ≠ none →
      ∃ e, (po.addItem (some pid) q up).2 = some e ∧
        (po.addItem (some pid) q up).1 = po) := by
  obtain ⟨n, hn, hden, hpos, hle⟩ := hq
  subst hn
  have main : (po.addItem (some pid) (.fin n) up).2 = none ↔
      (po.state.value = POStateValue.Draft ∧ po.items.length < MAX_ITEMS ∧
        unitPriceOk up) := by
    constructor
    · intro hnone
      rcases addItem_cases po (some pid) (.fin n) up with
        ⟨e, heq⟩ | ⟨u, it, hup, hu, hdr, hlen, _, heq⟩
      · rw [heq] at hnone
        simp at hnone
      · subst hup
        exact ⟨by simpa [PurchaseOrderState.isDraft] using hdr, hlen, ⟨u, rfl, hu⟩⟩
    · rintro ⟨hdraft, hlen, u, rfl, hu⟩
      have h1 : po.state.isDraft = true := by
        simp [PurchaseOrderState.isDraft, hdraft]
      simp [PurchaseOrder.addItem, h1, not_le.mpr hlen, not_lt.mpr hu,
        Money.make_ok po.currency hu, item_make_ok hid pid hden hpos hle]
  refine ⟨main, ?_⟩
  intro hsome
  rcases addItem_cases po (some pid) (.fin n) up with
    ⟨e, heq⟩ | ⟨u, it, hup, hu, hdr, hlen, _, heq⟩
  · exact ⟨e, by rw [heq], by rw [heq]⟩
  · rw [heq] at hsome
    simp at hsome

/-- Witness for C2: the 50th item can be added to a Draft order holding 49
items, and adding a 51st item to an order holding 50 items fails. -/
theorem addItem_guard_conditions_witness :
    (({ sampleOrder with items := List.replicate 49 sampleItem } :
        PurchaseOrder).addItem (some ⟨"prod-2"⟩) (.fin 1) (.fin 10)).2 = none ∧
    (({ sampleOrder with items := List.replicate 50 sampleItem } :
        PurchaseOrder).addItem (some ⟨"prod-2"⟩) (.fin 1) (.fin 10)).2 ≠ none :=
  ⟨(addItem_guard_conditions { sampleOrder with items := List.replicate 49 sampleItem }
      ⟨"prod-2"⟩ (.fin 1) (.fin 10) ⟨1, rfl, by decide, by decide, by decide⟩
      (by decide)).1.mpr
      ⟨rfl, by simp [MAX_ITEMS], ⟨10, rfl, by decide⟩⟩,
    fun h =>
      absurd ((addItem_guard_conditions
          { sampleOrder with items := List.replicate 50 sampleItem }
          ⟨"prod-2"⟩ (.fin 1) (.fin 10) ⟨1, rfl, by decide, by decide, by decide⟩
          (by decide)).1.mp h).2.1
        (by simp [MAX_ITEMS])⟩

/-- C7: a mutating operation that throws leaves the aggregate exactly as it
was: a failed `addItem` appends nothing and a failed lifecycle method keeps
the state field; a successful `addItem` appends exactly one item and a
successful lifecycle method changes only the state field. -/
theorem failed_mutators_leave_aggregate_unchanged (po : PurchaseOrder)
    (pid : Option ProductId) (q up : JSNum) :
    (∀ e, (po.addItem pid q up).2 = some e → (po.addItem pid q up).1 = po) ∧
    ((po.addItem pid q up).2 = none →
      ∃ it, (po.addItem pid q up).1 = { po with items := po.items ++ [it] }) ∧
    (∀ e, po.submit.2 = some e → po.submit.1 = po) ∧
    (po.submit.2 = none → ∃ s, po.submit.1 = { po with state := s }) ∧
    (∀ e, po.approve.2 = some e → po.approve.1 = po) ∧
    (po.approve.2 = none → ∃ s, po.approve.1 = { po with state := s }) ∧
    (∀ e, po.ship.2 = some e → po.ship.1 = po) ∧
    (po.ship.2 = none → ∃ s, po.ship.1 = { po with state := s }) ∧
    (∀ e, po.complete.2 = some e → po.complete.1 = po) ∧
    (po.complete.2 = none → ∃ s, po.complete.1 = { po with state := s }) ∧
    (∀ e, po.cancel.2 = some e → po.cancel.1 = po) ∧
    (po.cancel.2 = none → ∃ s, po.cancel.1 = { po with state := s }) := by
  refine ⟨?_, ?_, ?_, ?_, ?_, ?_, ?_, ?_, ?_, ?_, ?_, ?_⟩
  · intro e he
    rcases addItem_cases po pid q up with ⟨e', heq⟩ | ⟨u, it, _, _, _, _, _, heq⟩
    · rw [heq]
    · rw [heq] at he
      simp at he
  · intro hnone
    rcases addItem_cases po pid q up with ⟨e', heq⟩ | ⟨u, it, _, _, _, _, _, heq⟩
    · rw [heq] at hnone
      simp at hnone
    · exact ⟨it, by rw [heq]⟩
  · intro e
    unfold PurchaseOrder.submit
    cases po.state.toSubmittedFrom <;> simp
  · unfold PurchaseOrder.submit
    cases h : po.state.toSubmittedFrom with
    | ok s => exact fun _ => ⟨s, rfl⟩
    | error e => simp
  · intro e
    unfold PurchaseOrder.approve
    cases po.state.toApprovedFrom <;> simp
  · unfold PurchaseOrder.approve
    cases h : po.state.toApprovedFrom with
    | ok s => exact fun _ => ⟨s, rfl⟩
    | error e => simp
  · intro e
    unfold PurchaseOrder.ship
    cases po.state.toShippedFrom <;> simp
  · unfold PurchaseOrder.ship
    cases h : po.state.toShippedFrom with
    | ok s => exact fun _ => ⟨s, rfl⟩
    | error e => simp
  · intro e
    unfold PurchaseOrder.complete
    cases po.state.toCompletedFrom <;> simp
  · unfold PurchaseOrder.complete
    cases h : po.state.toCompletedFrom with
    | ok s => exact fun _ => ⟨s, rfl⟩
    | error e => simp
  · intro e
    unfold PurchaseOrder.cancel
    cases po.state.toCanceledFrom <;> simp
  · unfold PurchaseOrder.cancel
    cases h : po.state.toCanceledFrom with
    | ok s => exact fun _ => ⟨s, rfl⟩
    | error e => simp

/-- Witness for C7: on a Submitted order, `addItem` and `submit` both fail
and both leave the order exactly as it was. -/
theorem failed_mutators_leave_aggregate_unchanged_witness :
    (({ sampleOrder with state := ⟨POStateValue.Submitted⟩ } :
        PurchaseOrder).addItem (some ⟨"prod-2"⟩) (.fin 1) (.fin 10)).1 =
      { sampleOrder with state := ⟨POStateValue.Submitted⟩ } ∧
    ({ sampleOrder with state := ⟨POStateValue.Submitted⟩ } :
        PurchaseOrder).submit.1 =
      { sampleOrder with state := ⟨POStateValue.Submitted⟩ } :=
  ⟨(failed_mutators_leave_aggregate_unchanged
      { sampleOrder with state := ⟨POStateValue.Submitted⟩ }
      (some ⟨"prod-2"⟩) (.fin 1) (.fin 10)).1
      ⟨"Items can only be added to a PurchaseOrder in Draft state"⟩ rfl,
   (failed_mutators_leave_aggregate_unchanged
      { sampleOrder with state := ⟨POStateValue.Submitted⟩ }
      (some ⟨"prod-2"⟩) (.fin 1) (.fin 10)).2.2.1
      ⟨"PurchaseOrder can only be submitted from Draft state"⟩ rfl⟩

/-- C6: every order reachable through the public surface (construction
followed by any sequence of `addItem`, lifecycle calls and
`calculateTotalPrice`, each observed at its post-state whether it succeeded
or threw) satisfies the aggregate invariant: at most 50 items, and every
item's unit-price currency equals the order's currency.
(`calculateTotalPrice` takes no step because it does not mutate.) -/
theorem reachable_orders_satisfy_invariant (po : PurchaseOrder)
    (h : Reachable po) : POInvariant po := by
  induction h with
  | init fid now sid cur od po hmk =>
    by_cases ht : sid.truthy
    · cases cur with
      | none => simp [PurchaseOrder.make, ht] at hmk
      | some c =>
        simp only [PurchaseOrder.make, ht, not_true_eq_false, if_false,
          Except.ok.injEq] at hmk
        subst hmk
        exact ⟨by simp [MAX_ITEMS], by simp⟩
    · simp [PurchaseOrder.make, ht] at hmk
  | addItem po' pid q up hr ih =>
    rcases addItem_cases po' pid q up with
      ⟨e, heq⟩ | ⟨u, it, hup, hu, hdr, hlen, hunit, heq⟩
    · rw [heq]
      exact ih
    · rw [heq]
      obtain ⟨hlen0, hcur⟩ := ih
      constructor
      · simpa using hlen
      · intro x hx
        rcases List.mem_append.mp hx with hx | hx
        · exact hcur x hx
        · rcases List.mem_singleton.mp hx with rfl
          rw [hunit]
  | submit po' hr ih =>
    unfold PurchaseOrder.submit
    cases po'.state.toSubmittedFrom <;> simpa [POInvariant] using ih
  | approve po' hr ih =>
    unfold PurchaseOrder.approve
    cases po'.state.toApprovedFrom <;> simpa [POInvariant] using ih
  | ship po' hr ih =>
    unfold PurchaseOrder.ship
    cases po'.state.toShippedFrom <;> simpa [POInvariant] using ih
  | complete po' hr ih =>
    unfold PurchaseOrder.complete
    cases po'.state.toCompletedFrom <;> simpa [POInvariant] using ih
  | cancel po' hr ih =>
    unfold PurchaseOrder.cancel
    cases po'.state.toCanceledFrom <;> simpa [POInvariant] using ih

/-- Witness for C6: a freshly constructed order, after one `addItem` and one
`submit`, satisfies the invariant. -/
theorem reachable_orders_satisfy_invariant_witness :
    POInvariant (((⟨"order-1", .object, .USD, ⟨0⟩, [], ⟨POStateValue.Draft⟩⟩ :
        PurchaseOrder).addItem (some ⟨"prod-1"⟩) (.fin 1) (.fin 10)).1.submit.1) :=
  reachable_orders_satisfy_invariant _
    (Reachable.submit _ (Reachable.addItem _ _ _ _
      (Reachable.init "order-1" ⟨0⟩ .object (some .USD) none _ rfl)))

theorem Money.multiply_ok2 (m : Money) {r : ℚ} (hr : 0 ≤ r)
    (hp : 0 ≤ m.amount * r) :
    m.multiply (.fin r) = .ok ⟨round2 (m.amount * r), m.currency⟩ := by
  obtain ⟨a, c⟩ := m
  exact Money.multiply_ok c hr hp

theorem Money.add_ok2 (a b : Money) (hc : a.currency = b.currency)
    (h : 0 ≤ a.amount + b.amount) :
    a.add b = .ok ⟨round2 (a.amount + b.amount), a.currency⟩ := by
  obtain ⟨aa, ac⟩ := a
  obtain ⟨ba, bc⟩ := b
  simp only at hc h
  subst hc
  exact Money.add_ok ac h

theorem subtotal_ok (it : PurchaseOrderItem) (hq : 0 ≤ it.quantity)
    (ha : 0 ≤ it.unitPrice.amount) :
    it.calculateSubtotal = .ok (specSubtotal it) := by
  unfold PurchaseOrderItem.calculateSubtotal specSubtotal
  exact Money.multiply_ok2 it.unitPrice hq (mul_nonneg ha hq)

theorem totalPrice_foldlM (c : Currency) (items : List PurchaseOrderItem)
    (acc : Money) (hacc : acc.currency = c) (hnn : 0 ≤ acc.amount)
    (hc : ∀ it ∈ items, it.unitPrice.currency = c)
    (hq : ∀ it ∈ items, 0 ≤ it.quantity)
    (ha : ∀ it ∈ items, 0 ≤ it.unitPrice.amount) :
    items.foldlM (fun sum it => do sum.add (← it.calculateSubtotal)) acc =
      .ok (items.foldl (fun sum it => specAdd sum (specSubtotal it)) acc) := by
  induction items generalizing acc with
  | nil => rfl
  | cons it rest ih =>
    have hqit : 0 ≤ it.quantity := hq it (List.mem_cons_self it rest)
    have hait : 0 ≤ it.unitPrice.amount := ha it (List.mem_cons_self it rest)
    have hcit : it.unitPrice.currency = c := hc it (List.mem_cons_self it rest)
    have hsubnn : 0 ≤ (specSubtotal it).amount :=
      round2_nonneg (mul_nonneg hait hqit)
    have hstep : acc.add (specSubtotal it) =
        .ok (specAdd acc (specSubtotal it)) := by
      unfold specAdd
      exact Money.add_ok2 acc (specSubtotal it)
        (by rw [hacc]; exact hcit.symm) (add_nonneg hnn hsubnn)
    rw [List.foldlM_cons, subtotal_ok it hqit hait]
    show (acc.add (specSubtotal it)) >>= _ = _
    rw [hstep]
    show List.foldlM _ _ _ = _
    rw [ih (specAdd acc (specSubtotal it)) (by rw [← hacc]; rfl)
      (round2_nonneg (add_nonneg hnn hsubnn))
      (fun x hx => hc x (List.mem_cons_of_mem it hx))
      (fun x hx => hq x (List.mem_cons_of_mem it hx))
      (fun x hx => ha x (List.mem_cons_of_mem it hx))]
    rfl

/-- C4: `calculateTotalPrice` throws `ValidationError` on an empty order and
otherwise returns exactly the left fold of `Money.add` over every item's
subtotal (`unitPrice.multiply(quantity)`), seeded with a zero `Money` in the
order's currency, in insertion order. -/
theorem totalPrice_is_fold_of_subtotals (po : PurchaseOrder)
    (hc : ∀ it ∈ po.items, it.unitPrice.currency = po.currency)
    (hq : ∀ it ∈ po.items, 0 ≤ it.quantity)
    (ha : ∀ it ∈ po.items, 0 ≤ it.unitPrice.amount) :
    (po.items = [] → po.calculateTotalPrice =
      .error ⟨"Cannot calculate total price for an empty purchase order"⟩) ∧
    (po.items ≠ [] → po.calculateTotalPrice = .ok (specTotal po)) := by
  constructor
  · intro h
    simp [PurchaseOrder.calculateTotalPrice, h]
  · intro h
    unfold PurchaseOrder.calculateTotalPrice
    rw [if_neg (by simpa [List.length_eq_zero] using h)]
    show (Money.make (.fin 0) (some po.currency)) >>= _ = _
    rw [Money.make_ok po.currency le_rfl, round2_zero]
    show List.foldlM _ _ _ = _
    rw [totalPrice_foldlM po.currency po.items ⟨0, po.currency⟩ rfl le_rfl hc hq ha]
    rfl

/-- Witness for C4: the specification scenario — a USD order with one item of
quantity 5 at unit price 45.99 and one of quantity 10 at unit price 22.99 —
totals Money(459.85, USD). -/
theorem totalPrice_is_fold_of_subtotals_witness :
    scenarioOrder.calculateTotalPrice = .ok ⟨45985 / 100, .USD⟩ := by
  have hc : ∀ it ∈ scenarioOrder.items,
      it.unitPrice.currency = scenarioOrder.currency := by
    intro it hit
    simp only [scenarioOrder, List.mem_cons, List.not_mem_nil, or_false] at hit
    rcases hit with rfl | rfl <;> rfl
  have hq : ∀ it ∈ scenarioOrder.items, 0 ≤ it.quantity := by
    intro it hit
    simp only [scenarioOrder, List.mem_cons, List.not_mem_nil, or_false] at hit
    rcases hit with rfl | rfl <;> norm_num
  have ha : ∀ it ∈ scenarioOrder.items, 0 ≤ it.unitPrice.amount := by
    intro it hit
    simp only [scenarioOrder, List.mem_cons, List.not_mem_nil, or_false] at hit
    rcases hit with rfl | rfl <;> norm_num
  have h := (totalPrice_is_fold_of_subtotals scenarioOrder hc hq ha).2
    (by simp [scenarioOrder])
  rw [h]
  have e1 : round2 ((4599 : ℚ) / 100 * 5) = ((22995 : ℤ) : ℚ) / 100 := by
    rw [show ((4599 : ℚ) / 100 * 5) = ((22995 : ℤ) : ℚ) / 100 by norm_num,
      round2_int]
  have e2 : round2 ((0 : ℚ) + ((22995 : ℤ) : ℚ) / 100) = ((22995 : ℤ) : ℚ) / 100 := by
    rw [zero_add, round2_int]
  have e3 : round2 ((2299 : ℚ) / 100 * 10) = ((22990 : ℤ) : ℚ) / 100 := by
    rw [show ((2299 : ℚ) / 100 * 10) = ((22990 : ℤ) : ℚ) / 100 by norm_num,
      round2_int]
  have e4 : round2 (((22995 : ℤ) : ℚ) / 100 + ((22990 : ℤ) : ℚ) / 100) =
      ((45985 : ℤ) : ℚ) / 100 := by
    rw [show (((22995 : ℤ) : ℚ) / 100 + ((22990 : ℤ) : ℚ) / 100) =
      ((45985 : ℤ) : ℚ) / 100 by push_cast; norm_num, round2_int]
  simp only [specTotal, scenarioOrder, specZero, specAdd, specSubtotal,
    List.foldl_cons, List.foldl_nil]
  rw [e1, e3, e2, e4]
  norm_num

/-- Counterexample to C8 as stated: a caller holding the value returned by
the `items` getter (the internal array reference) pushes one item through
it, and the aggregate's own item sequence — empty before — now contains
that item: the getter is not a read-only view. -/
theorem items_getter_not_readonly_counterexample :
    PurchaseOrderRef.itemsIn ⟨0⟩
        (ArrayStore.push ⟨fun _ => []⟩ (PurchaseOrderRef.itemsGetter ⟨0⟩) sampleItem) ≠
      PurchaseOrderRef.itemsIn ⟨0⟩ ⟨fun _ => []⟩ := by
  simp [PurchaseOrderRef.itemsIn, ArrayStore.push, PurchaseOrderRef.itemsGetter]

/-- C8 (amended): the `items` getter returns the aggregate's internal array
reference itself (`return this.#items`, no copy and no freeze), so a caller
pushing through the returned reference appends directly to the aggregate's
own item sequence, bypassing `addItem`. -/
theorem items_getter_returns_internal_reference (s : ArrayStore)
    (po : PurchaseOrderRef) (it : PurchaseOrderItem) :
    po.itemsGetter = po.itemsAddr ∧
    po.itemsIn (s.push po.itemsGetter it) = po.itemsIn s ++ [it] := by
  refine ⟨rfl, ?_⟩
  simp [PurchaseOrderRef.itemsIn, ArrayStore.push, PurchaseOrderRef.itemsGetter]
